import Mathlib

set_option autoImplicit false

/-!
Shallow embedding of `shinysdr/i/network/export_http.py`.

Python objects are modelled with explicit identities: `BlockId` stands for
the identity of a model `Block` object, `CellId` for the identity of a cell
object, and `ChildResource.rid` for the identity of a constructed child
`BlockResource` instance.  Mutable per-resource state (the
`WeakKeyDictionary` identity cache and the fresh-instance counter) is passed
explicitly, so every method of the Python classes becomes a state-passing
function.  External collaborators (the `serialize` function, `json.loads`,
the templating engine, the model's cells) are parameters of the functions
that call them, constrained only where the specification constrains them.
-/

namespace ExportHttp

/-- Request/response bodies are byte strings; modelled as `String`. -/
abbrev Bytes := String

/-- Identity of a model `Block` object. -/
abbrev BlockId := Nat

/-- Identity of a cell object. -/
abbrev CellId := Nat

/-- String constants used by the source. -/
def jsonMime : String := "application/json"

def htmlMime : String := "text/html;charset=utf-8"

def pngMime : String := "image/png"

def ctField : String := "Content-Type"

def locField : String := "Location"

def receiversSeg : String := "/receivers/"

def emptyBody : Bytes := ""

def trueStr : String := "true"

def falseStr : String := "false"

def textPlain : String := "text/plain"

def sKey : String := "a b"

def hostUrl : String := "http://host"

def rootPath : String := "root"

/-- First-match association-list lookup; models a Python dict /
`WeakKeyDictionary.get` (new entries are inserted at the front). -/
def lookupKey {α β : Type} [DecidableEq α] : List (α × β) → α → Option β
  | [], _ => none
  | p :: rest, a => if p.1 = a then some p.2 else lookupKey rest a

/-- A cell as seen through `block.state()`: `cell.isBlock()` distinguishes
value cells from block cells; the payload is the cell object's identity.
A block cell's `get()` is evaluated against the current model state (the
`cellGet` argument below), since for dynamic collections the block it
returns may change identity over time. -/
inductive CellKind where
  | value (cid : CellId)
  | block (cid : CellId)
deriving DecidableEq

/-- The observable identity of a child `BlockResource` built by
`BlockResource.__makeChildBlockResource`: a fresh instance id `rid`, the
wrapped child block, and the data captured by its deleter closure (the
child's name and the parent block, used by `render_DELETE`). -/
structure ChildResource where
  rid : Nat
  block : BlockId
  deleterName : String
  deleterParent : BlockId
deriving DecidableEq

/-- Mutable state of one `BlockResource`: the owning block, the `_dynamic`
flag, the static `_blockCells` mapping, the `putChild`-installed static
value children (twisted's `children` dict, holding `ValueCellResource`s
identified by their cell), the `_blockResourceCache` keyed by child-block
object identity, and a counter supplying fresh child-instance identities. -/
structure BlockRes where
  block : BlockId
  dynamic : Bool
  blockCells : List (String × CellId)
  children : List (String × CellId)
  cache : List (BlockId × ChildResource)
  nextRid : Nat
deriving DecidableEq

/-- The static-constructor loop of `BlockResource.__init__`: block cells go
to `_blockCells`, value cells are installed as `ValueCellResource` children.
Returns `(blockCells, children)`. -/
def installStatic : List (String × CellKind) → List (String × CellId) × List (String × CellId)
  | [] => ([], [])
  | (k, CellKind.block cid) :: rest =>
      ((k, cid) :: (installStatic rest).1, (installStatic rest).2)
  | (k, CellKind.value cid) :: rest =>
      ((installStatic rest).1, (k, cid) :: (installStatic rest).2)

/-- `BlockResource.__init__`: for a dynamic block nothing is installed; for
a static block the snapshot of `block.state()` taken at construction time is
split into `_blockCells` and permanent value children.  The identity cache
starts empty in both cases. -/
def mkBlockResource (block : BlockId) (dynamic : Bool)
    (snapshot : List (String × CellKind)) : BlockRes :=
  if dynamic then ⟨block, true, [], [], [], 0⟩
  else ⟨block, false, (installStatic snapshot).1, (installStatic snapshot).2, [], 0⟩

/-- `BlockResource.__makeChildBlockResource`: constructs a fresh child
resource for `block`, whose deleter closure captures `name` and the parent
block. -/
def makeChildBlockResource (res : BlockRes) (name : String) (block : BlockId) : ChildResource :=
  ⟨res.nextRid, block, name, res.block⟩

/-- `BlockResource.__getBlockChild`: consult the identity cache (keyed by
the child block object); on a miss, construct a new child resource and
insert it. -/
def getBlockChild (res : BlockRes) (name : String) (block : BlockId) :
    ChildResource × BlockRes :=
  match lookupKey res.cache block with
  | some r => (r, res)
  | none =>
      (makeChildBlockResource res name block,
       { res with
          cache := (block, makeChildBlockResource res name block) :: res.cache,
          nextRid := res.nextRid + 1 })

/-- Result of resolving one path segment. -/
inductive ChildResult where
  | block (r : ChildResource)
  | value (cid : CellId)
  | notFound
deriving DecidableEq

/-- `BlockResource.getChild`: a dynamic block re-reads the block's current
state `cs` (the `block.state()` mapping at call time) and resolves only
block-valued cells through the identity cache; a static block consults the
`_blockCells` snapshot.  Everything else falls through to the default
not-found resolution (`Resource.getChild`).  `g` gives each block cell's
current `get()` result. -/
def getChild (res : BlockRes) (name : String) (cs : String → Option CellKind)
    (g : CellId → BlockId) : ChildResult × BlockRes :=
  if res.dynamic then
    match cs name with
    | some (CellKind.block cid) =>
        (ChildResult.block (getBlockChild res name (g cid)).1,
         (getBlockChild res name (g cid)).2)
    | _ => (ChildResult.notFound, res)
  else
    match lookupKey res.blockCells name with
    | some cid =>
        (ChildResult.block (getBlockChild res name (g cid)).1,
         (getBlockChild res name (g cid)).2)
    | none => (ChildResult.notFound, res)

/-- Twisted's `Resource.getChildWithDefault` dispatch (external
collaborator, modelled minimally): the `putChild`-installed static children
are consulted first, then `getChild`. -/
def resolveChild (res : BlockRes) (name : String) (cs : String → Option CellKind)
    (g : CellId → BlockId) : ChildResult × BlockRes :=
  match lookupKey res.children name with
  | some cid => (ChildResult.value cid, res)
  | none => getChild res name cs g

/-- The block object a name currently resolves to (if any): the branch of
`getChild` that reaches `__getBlockChild`, with the block it passes. -/
def currentChildBlock (res : BlockRes) (name : String) (cs : String → Option CellKind)
    (g : CellId → BlockId) : Option BlockId :=
  if res.dynamic then
    match cs name with
    | some (CellKind.block cid) => some (g cid)
    | _ => none
  else
    match lookupKey res.blockCells name with
    | some cid => some (g cid)
    | none => none

/-- Cache well-formedness: every cached resource wraps exactly the block it
is keyed by (true of every cache the constructor and `getChild` produce). -/
def BlockRes.WF (res : BlockRes) : Prop :=
  ∀ p ∈ res.cache, p.2.block = p.1

/-- Keys of a state snapshot are distinct (Python dict keys are unique). -/
def keysNodup (snap : List (String × CellKind)) : Prop :=
  (snap.map Prod.fst).Nodup

/-- Result of a Python call that may raise an exception. -/
inductive Out (ε α : Type) where
  | ok (a : α)
  | error (e : ε)
deriving DecidableEq

/-- Exceptions raised inside cell-resource handlers. -/
inductive CellErr where
  | notImplemented
  | parseFailed
deriving DecidableEq

/-- Observable outcome of a successful `_CellResource.render_PUT`: the value
stored by `cell.set`, the response code, the returned body, and how many
times the shared `note_dirty` callback fired. -/
structure PutResult (V : Type) where
  newValue : V
  code : Nat
  body : Bytes
  dirtyCount : Nat
deriving DecidableEq

/-- `_CellResource.grparse`: the base class raises `NotImplementedError`. -/
def baseGrparse (V : Type) : Bytes → Out CellErr V :=
  fun _ => Out.error CellErr.notImplemented

/-- `_CellResource.render_PUT`: read the request body, parse it with the
(subclass-supplied) `grparse`, store the parsed value via `cell.set`, set
response code 204, fire `note_dirty` once, and return an empty body.  A
parse failure propagates before any of the side effects happen. -/
def render_PUT {V : Type} (grparse : Bytes → Out CellErr V) (body : Bytes) :
    Out CellErr (PutResult V) :=
  match grparse body with
  | Out.error e => Out.error e
  | Out.ok v => Out.ok ⟨v, 204, emptyBody, 1⟩

/-- `_CellResource.render_GET`: renders the cell's current value with the
(subclass-supplied) `grrender`. -/
def cellRender_GET {V : Type} (grrender : V → Bytes) (cellValue : V) : Bytes :=
  grrender cellValue

/-- A `PUT` on a `ValueCellResource` followed by a `GET` of the same path:
`grparse` is `json.loads` and `grrender` is the external `serialize`
(both passed as parameters).  The `GET` reads the value the `PUT` stored. -/
def valuePutGet {J : Type} (loads : Bytes → Out CellErr J) (ser : J → Bytes)
    (body : Bytes) : Out CellErr Bytes :=
  match render_PUT loads body with
  | Out.error e => Out.error e
  | Out.ok pr => Out.ok (cellRender_GET ser pr.newValue)

/-- An HTTP request as consulted by the handlers: body, `Accept` header,
`Content-Type` header, `prePathURL()` and `prepath`. -/
structure Request where
  content : Bytes
  accept : Option String
  contentType : Option String
  prePathURL : String
  prepath : String
deriving DecidableEq

/-- Exceptions raised inside `BlockResource` handlers. -/
inductive HttpErr where
  | notWritableCollection
  | assertionFailed
  | jsonError
  | createFailed
deriving DecidableEq

/-- Observable side effects of `render_POST` / `render_DELETE`, in the order
they are performed. -/
inductive Ev where
  | readBody
  | createdChild (key : String)
  | deletedChild (name : String)
  | notedDirty
  | setCode (n : Nat)
  | setHeader (field value : String)
deriving DecidableEq

/-- Uppercase hexadecimal digit for a value below 16. -/
def hexDigit (n : Nat) : Char :=
  if n < 10 then Char.ofNat (48 + n) else Char.ofNat (55 + n)

/-- Percent-encoding of one byte. -/
def percentEncode (c : Char) : String :=
  String.mk ['%', hexDigit (c.toNat / 16 % 16), hexDigit (c.toNat % 16)]

/-- The characters Python 2 `urllib.quote` never escapes (its `always_safe`
set: letters, digits, and the three marks), with `safe` set to the empty
string so nothing else is exempt. -/
def quoteSafe (c : Char) : Bool :=
  c.isAlphanum || c = '_' || c = '.' || c = '-'

/-- `urllib.quote(key, safe='')` on an ASCII key: every character outside
the always-safe set is percent-escaped. -/
def urlQuote (s : String) : String :=
  String.join (s.data.map (fun c => if quoteSafe c then String.singleton c else percentEncode c))

/-- The URL `render_POST` builds for the created child:
`request.prePathURL() + '/receivers/' + urllib.quote(key, safe='')`. -/
def postUrl (req : Request) (key : String) : String :=
  req.prePathURL ++ receiversSeg ++ urlQuote key

/-- `BlockResource.render_POST`: check the writable-collection capability,
assert the `Content-Type` header is exactly `application/json`, read and
parse the body (`json.load`), create the child (`create_child`, which may
fail), fire `note_dirty`, and respond 201 with a `Location` header and a
serialized copy of that URL as body.  The first component lists the side
effects that occurred, in order. -/
def render_POST {J : Type} (writable : Bool) (jsonLoad : Bytes → Out CellErr J)
    (create : J → Out CellErr String) (ser : String → Bytes) (req : Request) :
    List Ev × Out HttpErr Bytes :=
  if writable = false then ([], Out.error HttpErr.notWritableCollection)
  else if req.contentType = some jsonMime then
    match jsonLoad req.content with
    | Out.error _ => ([Ev.readBody], Out.error HttpErr.jsonError)
    | Out.ok j =>
        match create j with
        | Out.error _ => ([Ev.readBody], Out.error HttpErr.createFailed)
        | Out.ok key =>
            ([Ev.readBody, Ev.createdChild key, Ev.notedDirty, Ev.setCode 201,
              Ev.setHeader locField (postUrl req key)],
             Out.ok (ser (postUrl req key)))
  else ([], Out.error HttpErr.assertionFailed)

/-- The deleter closure built by `__makeChildBlockResource`: raises unless
the parent block provides `IWritableCollection`, then calls
`delete_child(name)` on the parent. -/
def deleter (parentWritable : Bool) (name : String) : List Ev × Out HttpErr Unit :=
  if parentWritable then ([Ev.deletedChild name], Out.ok ())
  else ([], Out.error HttpErr.notWritableCollection)

/-- `BlockResource.render_DELETE`: invoke the bound deleter closure, then
fire `note_dirty` and respond 204 with an empty body. -/
def render_DELETE (parentWritable : Bool) (name : String) : List Ev × Out HttpErr Bytes :=
  match deleter parentWritable name with
  | (evs, Out.error e) => (evs, Out.error e)
  | (evs, Out.ok _) => (evs ++ [Ev.notedDirty, Ev.setCode 204], Out.ok emptyBody)

/-- The HTML document produced by the external `renderElement` collaborator
for `_BlockHtmlElement`; modelled by its title, which the element's `title`
renderer fills with `request.prepath`. -/
structure HtmlDoc where
  title : String
deriving DecidableEq

/-- Response of `BlockResource.render_GET`: either a JSON body or an HTML
document, each with its `Content-Type`. -/
inductive GetResponse where
  | json (contentType : String) (body : Bytes)
  | html (contentType : String) (doc : HtmlDoc)
deriving DecidableEq

/-- Whether `needle` occurs as a contiguous run inside the list. -/
def listHasInfix {α : Type} [DecidableEq α] (needle : List α) : List α → Bool
  | [] => needle.isEmpty
  | a :: rest => needle.isPrefixOf (a :: rest) || listHasInfix needle rest

/-- Python's substring test, `needle in haystack`. -/
def strContains (haystack needle : String) : Bool :=
  listHasInfix needle.data haystack.data

/-- The condition of `render_GET`:
`accept is not None and 'application/json' in accept`. -/
def jsonAccepted (accept : Option String) : Bool :=
  match accept with
  | some a => strContains a jsonMime
  | none => false

/-- `_BlockHtmlElement.title`: the title renderer returns
`tag(request.prepath)`. -/
def elementTitle (req : Request) : String :=
  req.prepath

/-- `BlockResource.render_GET`: if the `Accept` header mentions
`application/json`, respond with the serialized structural description and a
JSON content type; otherwise respond with the HTML document rendered from
`_BlockHtmlElement` (whose title holds the request path). -/
def blockRender_GET {D : Type} (ser : D → Bytes) (description : D) (req : Request) :
    GetResponse :=
  if jsonAccepted req.accept then GetResponse.json jsonMime (ser description)
  else GetResponse.html htmlMime ⟨elementTitle req⟩

/-- Observable operations of `FlowgraphVizResource.render_GET` and
`_DotProcessProtocol`, in order: response-header set, writes to the
subprocess's stdin, stdin close, response body writes, response finish. -/
inductive VizEv where
  | setHeader (field value : String)
  | stdinWrite (data : Bytes)
  | stdinClose
  | respWrite (data : Bytes)
  | respFinish
deriving DecidableEq

/-- Events delivered by the reactor for the subprocess's stdout. -/
inductive ProcEvent where
  | outReceived (data : Bytes)
  | outConnectionLost
deriving DecidableEq

/-- `_DotProcessProtocol`: each stdout chunk is written to the response as
it arrives; when the stdout stream ends the response is finished. -/
def dotProtocolStep : ProcEvent → List VizEv
  | ProcEvent.outReceived d => [VizEv.respWrite d]
  | ProcEvent.outConnectionLost => [VizEv.respFinish]

/-- Operations the protocol performs over a whole event sequence. -/
def traceOfEvents : List ProcEvent → List VizEv
  | [] => []
  | e :: rest => dotProtocolStep e ++ traceOfEvents rest

/-- `FlowgraphVizResource.render_GET`: set the image content type, write the
block's `dot_graph()` to the subprocess's stdin and close it, then (the
handler having returned `NOT_DONE_YET`) relay subprocess output through
`_DotProcessProtocol` as the reactor delivers `events`. -/
def vizRender_GET (dotGraph : Bytes) (events : List ProcEvent) : List VizEv :=
  VizEv.setHeader ctField pngMime :: VizEv.stdinWrite dotGraph :: VizEv.stdinClose ::
    traceOfEvents events

end ExportHttp

namespace ExportHttp

instance instDecidableWF (res : BlockRes) : Decidable res.WF :=
  inferInstanceAs (Decidable (∀ p ∈ res.cache, p.2.block = p.1))

instance instDecidableKeysNodup (snap : List (String × CellKind)) :
    Decidable (keysNodup snap) :=
  inferInstanceAs (Decidable (snap.map Prod.fst).Nodup)

theorem lookupKey_mem {α β : Type} [DecidableEq α] (l : List (α × β)) (a : α) (b : β)
    (h : lookupKey l a = some b) : (a, b) ∈ l := by
  induction l with
  | nil => simp [lookupKey] at h
  | cons p rest ih =>
      obtain ⟨k, v⟩ := p
      unfold lookupKey at h
      by_cases hpa : k = a
      · subst hpa
        rw [if_pos rfl] at h
        injection h with h2
        subst h2
        exact List.mem_cons_self _ _
      · rw [if_neg hpa] at h
        exact List.mem_cons_of_mem _ (ih h)

theorem getChild_of_current (res : BlockRes) (name : String)
    (cs : String → Option CellKind) (g : CellId → BlockId) (b : BlockId)
    (h : currentChildBlock res name cs g = some b) :
    getChild res name cs g =
      (ChildResult.block (getBlockChild res name b).1, (getBlockChild res name b).2) := by
  unfold currentChildBlock at h
  unfold getChild
  cases hd : res.dynamic with
  | true =>
      simp only [hd, if_pos rfl] at h ⊢
      cases hcs : cs name with
      | none => simp [hcs] at h
      | some k =>
          cases k with
          | value cid => simp [hcs] at h
          | block cid =>
              simp only [hcs] at h ⊢
              cases h
              rfl
  | false =>
      simp only [hd, Bool.false_eq_true, if_neg] at h ⊢
      cases hbc : lookupKey res.blockCells name with
      | none => simp [hbc] at h
      | some cid =>
          simp only [hbc] at h ⊢
          cases h
          rfl

theorem getBlockChild_lookup (res : BlockRes) (name : String) (b : BlockId) :
    lookupKey (getBlockChild res name b).2.cache b = some (getBlockChild res name b).1 := by
  unfold getBlockChild
  cases hc : lookupKey res.cache b with
  | some r => simp [hc]
  | none => simp [hc, lookupKey]

theorem getBlockChild_block (res : BlockRes) (name : String) (b : BlockId)
    (hwf : res.WF) : ((getBlockChild res name b).1).block = b := by
  unfold getBlockChild
  cases hc : lookupKey res.cache b with
  | some r =>
      simpa using hwf (b, r) (lookupKey_mem res.cache b r hc)
  | none => rfl

theorem getBlockChild_WF (res : BlockRes) (name : String) (b : BlockId)
    (hwf : res.WF) : ((getBlockChild res name b).2).WF := by
  unfold getBlockChild
  cases hc : lookupKey res.cache b with
  | some r => simpa using hwf
  | none =>
      intro p hp
      simp only [List.mem_cons] at hp
      cases hp with
      | inl h => subst h; rfl
      | inr h => exact hwf p h

/-- Claim C1: identity stability of child resolution.  For every
`BlockResource` and every name, if resolving that name twice in succession
yields the same still-alive child Block object `b` both times, then the
second resolution returns the identical child resource instance and leaves
the resource state unchanged (the second lookup hits the identity cache
rather than constructing a new resource). -/
theorem C1_identity_stability (res : BlockRes) (name : String)
    (cs₁ cs₂ : String → Option CellKind) (g₁ g₂ : CellId → BlockId)
    (b : BlockId) (r₁ : ChildResource) (res₁ : BlockRes)
    (h₁ : currentChildBlock res name cs₁ g₁ = some b)
    (heq₁ : getChild res name cs₁ g₁ = (ChildResult.block r₁, res₁))
    (h₂ : currentChildBlock res₁ name cs₂ g₂ = some b) :
    getChild res₁ name cs₂ g₂ = (ChildResult.block r₁, res₁) := by
  have e₁ := getChild_of_current res name cs₁ g₁ b h₁
  have e := heq₁.symm.trans e₁
  simp only [Prod.mk.injEq, ChildResult.block.injEq] at e
  obtain ⟨er, es⟩ := e
  have hlook : lookupKey res₁.cache b = some r₁ := by
    rw [er, es]
    exact getBlockChild_lookup res name b
  have e₂ := getChild_of_current res₁ name cs₂ g₂ b h₂
  rw [e₂]
  unfold getBlockChild
  rw [hlook]

/-- Closed witness for C1: a dynamic resource resolves a name to block 7
twice; the second call returns the very resource the first call constructed
and cached, with the state unchanged. -/
theorem C1_identity_stability_witness :
    currentChildBlock ⟨0, true, [], [], [], 0⟩ "tuner"
        (fun _ => some (CellKind.block 3)) (fun _ => 7) = some 7 ∧
    getChild ⟨0, true, [], [], [], 0⟩ "tuner"
        (fun _ => some (CellKind.block 3)) (fun _ => 7) =
      (ChildResult.block ⟨0, 7, "tuner", 0⟩,
       ⟨0, true, [], [], [(7, ⟨0, 7, "tuner", 0⟩)], 1⟩) ∧
    getChild ⟨0, true, [], [], [(7, ⟨0, 7, "tuner", 0⟩)], 1⟩ "tuner"
        (fun _ => some (CellKind.block 3)) (fun _ => 7) =
      (ChildResult.block ⟨0, 7, "tuner", 0⟩,
       ⟨0, true, [], [], [(7, ⟨0, 7, "tuner", 0⟩)], 1⟩) :=
  ⟨by decide, by decide,
   C1_identity_stability ⟨0, true, [], [], [], 0⟩ "tuner"
     (fun _ => some (CellKind.block 3)) (fun _ => some (CellKind.block 3))
     (fun _ => 7) (fun _ => 7) 7 ⟨0, 7, "tuner", 0⟩
     ⟨0, true, [], [], [(7, ⟨0, 7, "tuner", 0⟩)], 1⟩
     (by decide) (by decide) (by decide)⟩

/-- Claim C2: identity refresh.  The identity cache is keyed by child-Block
object identity, not by name: if the block object a name resolves to changes
from `b` to a different live object `b1` between two resolutions, the second
resolution returns a resource wrapping the new object, never the stale
cached resource of the old object; and when the new object is uncached it is
a freshly constructed resource. -/
theorem C2_identity_refresh (res : BlockRes) (name : String)
    (cs₁ cs₂ : String → Option CellKind) (g₁ g₂ : CellId → BlockId)
    (b b1 : BlockId) (r₁ r₂ : ChildResource) (res₁ res₂ : BlockRes)
    (hwf : res.WF)
    (h₁ : currentChildBlock res name cs₁ g₁ = some b)
    (heq₁ : getChild res name cs₁ g₁ = (ChildResult.block r₁, res₁))
    (h₂ : currentChildBlock res₁ name cs₂ g₂ = some b1)
    (hne : b1 ≠ b)
    (heq₂ : getChild res₁ name cs₂ g₂ = (ChildResult.block r₂, res₂)) :
    r₂.block = b1 ∧ r₂ ≠ r₁ ∧
      (lookupKey res₁.cache b1 = none → r₂ = makeChildBlockResource res₁ name b1) := by
  have e₁ := getChild_of_current res name cs₁ g₁ b h₁
  have e := heq₁.symm.trans e₁
  simp only [Prod.mk.injEq, ChildResult.block.injEq] at e
  obtain ⟨er₁, es₁⟩ := e
  have hr₁b : r₁.block = b := by
    rw [er₁]; exact getBlockChild_block res name b hwf
  have hwf₁ : res₁.WF := by
    rw [es₁]; exact getBlockChild_WF res name b hwf
  have e₂ := getChild_of_current res₁ name cs₂ g₂ b1 h₂
  have e' := heq₂.symm.trans e₂
  simp only [Prod.mk.injEq, ChildResult.block.injEq] at e'
  obtain ⟨er₂, es₂⟩ := e'
  have hr₂b : r₂.block = b1 := by
    rw [er₂]; exact getBlockChild_block res₁ name b1 hwf₁
  refine ⟨hr₂b, ?_, ?_⟩
  · intro hcontr
    apply hne
    rw [← hr₂b, hcontr, hr₁b]
  · intro hnone
    rw [er₂]
    unfold getBlockChild
    rw [hnone]

/-- Closed witness for C2: the name first resolves to block 7 (cached as
resource instance 0), then to a different live block 8; the second
resolution wraps 8, differs from the stale instance, and is the freshly
constructed resource. -/
theorem C2_identity_refresh_witness :
    (⟨0, true, [], [], [], 0⟩ : BlockRes).WF ∧
    (⟨1, 8, "tuner", 0⟩ : ChildResource).block = 8 ∧
    (⟨1, 8, "tuner", 0⟩ : ChildResource) ≠ ⟨0, 7, "tuner", 0⟩ ∧
    (lookupKey [(7, (⟨0, 7, "tuner", 0⟩ : ChildResource))] 8 = none →
      (⟨1, 8, "tuner", 0⟩ : ChildResource) =
        makeChildBlockResource ⟨0, true, [], [], [(7, ⟨0, 7, "tuner", 0⟩)], 1⟩ "tuner" 8) := by
  refine ⟨by decide, ?_⟩
  have h := C2_identity_refresh ⟨0, true, [], [], [], 0⟩ "tuner"
    (fun _ => some (CellKind.block 3)) (fun _ => some (CellKind.block 3))
    (fun _ => 7) (fun _ => 8) 7 8 ⟨0, 7, "tuner", 0⟩ ⟨1, 8, "tuner", 0⟩
    ⟨0, true, [], [], [(7, ⟨0, 7, "tuner", 0⟩)], 1⟩
    ⟨0, true, [], [], [(8, ⟨1, 8, "tuner", 0⟩), (7, ⟨0, 7, "tuner", 0⟩)], 2⟩
    (by decide) (by decide) (by decide) (by decide) (by decide) (by decide)
  exact h

theorem lookupKey_none_forall {α β : Type} [DecidableEq α] (l : List (α × β)) (a : α)
    (h : lookupKey l a = none) : ∀ p ∈ l, p.1 ≠ a := by
  induction l with
  | nil => intro p hp; simp at hp
  | cons p rest ih =>
      intro q hq
      unfold lookupKey at h
      by_cases hpa : p.1 = a
      · rw [if_pos hpa] at h
        exact absurd h (by simp)
      · rw [if_neg hpa] at h
        rcases List.mem_cons.mp hq with hq1 | hq2
        · subst hq1; exact hpa
        · exact ih h q hq2

theorem installStatic_lookup_of_not_mem (snap : List (String × CellKind)) (name : String)
    (h : ∀ p ∈ snap, p.1 ≠ name) :
    lookupKey (installStatic snap).1 name = none ∧
    lookupKey (installStatic snap).2 name = none := by
  induction snap with
  | nil => exact ⟨rfl, rfl⟩
  | cons p rest ih =>
      obtain ⟨k, kind⟩ := p
      have hk : k ≠ name := h (k, kind) (List.mem_cons_self _ _)
      have ih2 := ih (fun q hq => h q (List.mem_cons_of_mem _ hq))
      cases kind with
      | block cid => simp [installStatic, lookupKey, hk, ih2.1, ih2.2]
      | value cid => simp [installStatic, lookupKey, hk, ih2.1, ih2.2]

theorem installStatic_value (snap : List (String × CellKind)) (name : String) (cid : CellId)
    (h : lookupKey snap name = some (CellKind.value cid)) :
    lookupKey (installStatic snap).2 name = some cid := by
  induction snap with
  | nil => simp [lookupKey] at h
  | cons p rest ih =>
      obtain ⟨k, kind⟩ := p
      by_cases hk : k = name
      · subst hk
        simp [lookupKey] at h
        subst h
        simp [installStatic, lookupKey]
      · simp only [lookupKey, if_neg hk] at h
        cases kind with
        | block c => simp [installStatic, lookupKey, hk, ih h]
        | value c => simp [installStatic, lookupKey, hk, ih h]

theorem installStatic_block (snap : List (String × CellKind)) (name : String) (cid : CellId)
    (hn : keysNodup snap)
    (h : lookupKey snap name = some (CellKind.block cid)) :
    lookupKey (installStatic snap).1 name = some cid ∧
    lookupKey (installStatic snap).2 name = none := by
  induction snap with
  | nil => simp [lookupKey] at h
  | cons p rest ih =>
      obtain ⟨k, kind⟩ := p
      have hn2 : (k :: rest.map Prod.fst).Nodup := by simpa [keysNodup] using hn
      have hrestn : keysNodup rest := by
        simpa [keysNodup] using (List.nodup_cons.mp hn2).2
      by_cases hk : k = name
      · subst hk
        simp [lookupKey] at h
        subst h
        have hnm : ∀ q ∈ rest, q.1 ≠ k := by
          intro q hq hcontra
          exact (List.nodup_cons.mp hn2).1
            (by rw [← hcontra]; exact List.mem_map_of_mem Prod.fst hq)
        have hrest := installStatic_lookup_of_not_mem rest k hnm
        exact ⟨by simp [installStatic, lookupKey], by simpa [installStatic] using hrest.2⟩
      · simp only [lookupKey, if_neg hk] at h
        have ih2 := ih hrestn h
        cases kind with
        | block c =>
            exact ⟨by simp [installStatic, lookupKey, hk, ih2.1],
                   by simpa [installStatic] using ih2.2⟩
        | value c =>
            exact ⟨by simpa [installStatic] using ih2.1,
                   by simp [installStatic, lookupKey, hk, ih2.2]⟩

/-- Claim C3: child-resolution rules.  For a dynamic `BlockResource`,
resolution re-reads the block's current state on every call and returns a
child resource (via the identity cache) exactly when the name maps to a
block-valued cell, falling through to not-found for value cells and absent
names.  For a static `BlockResource`, value cells from the construction-time
snapshot are permanently installed `ValueCellResource` children (resolved
regardless of the current state and without touching the resource state),
block cells are resolved lazily through the identity cache (which starts
empty: nothing is eagerly materialized), and absent names are not found. -/
theorem C3_child_resolution_rules (blk : BlockId) (snap : List (String × CellKind))
    (name : String) (cs : String → Option CellKind) (g : CellId → BlockId) (cid : CellId) :
    (∀ res : BlockRes, res.dynamic = true → res.children = [] →
        cs name = some (CellKind.block cid) →
        resolveChild res name cs g =
          (ChildResult.block (getBlockChild res name (g cid)).1,
           (getBlockChild res name (g cid)).2)) ∧
    (∀ res : BlockRes, res.dynamic = true → res.children = [] →
        (cs name = none ∨ cs name = some (CellKind.value cid)) →
        resolveChild res name cs g = (ChildResult.notFound, res)) ∧
    ((mkBlockResource blk true snap).children = [] ∧
     (mkBlockResource blk true snap).cache = []) ∧
    (lookupKey snap name = some (CellKind.value cid) →
        resolveChild (mkBlockResource blk false snap) name cs g =
          (ChildResult.value cid, mkBlockResource blk false snap)) ∧
    (keysNodup snap → lookupKey snap name = some (CellKind.block cid) →
        resolveChild (mkBlockResource blk false snap) name cs g =
          (ChildResult.block (getBlockChild (mkBlockResource blk false snap) name (g cid)).1,
           (getBlockChild (mkBlockResource blk false snap) name (g cid)).2)) ∧
    (lookupKey snap name = none →
        resolveChild (mkBlockResource blk false snap) name cs g =
          (ChildResult.notFound, mkBlockResource blk false snap)) ∧
    (mkBlockResource blk false snap).cache = [] := by
  refine ⟨?_, ?_, ?_, ?_, ?_, ?_, ?_⟩
  · intro res hd hch hcs
    simp [resolveChild, hch, lookupKey, getChild, hd, hcs]
  · intro res hd hch hcs
    rcases hcs with hcs | hcs <;>
      simp [resolveChild, hch, lookupKey, getChild, hd, hcs]
  · simp [mkBlockResource]
  · intro h
    have hv := installStatic_value snap name cid h
    simp [resolveChild, mkBlockResource, hv]
  · intro hn h
    obtain ⟨hb, hv⟩ := installStatic_block snap name cid hn h
    simp [resolveChild, mkBlockResource, hv, getChild, hb]
  · intro h
    have hall := lookupKey_none_forall snap name h
    obtain ⟨hb, hv⟩ := installStatic_lookup_of_not_mem snap name hall
    simp [resolveChild, mkBlockResource, hv, getChild, hb]
  · simp [mkBlockResource]

/-- Closed witness for C3: a static block with a value cell named volume and
a block cell named tuner; the value child resolves permanently, the block
child resolves through the (initially empty) identity cache. -/
theorem C3_child_resolution_rules_witness :
    lookupKey [("volume", CellKind.value 5), ("tuner", CellKind.block 3)] "volume" =
      some (CellKind.value 5) ∧
    resolveChild
        (mkBlockResource 0 false [("volume", CellKind.value 5), ("tuner", CellKind.block 3)])
        "volume" (fun _ => none) (fun _ => 7) =
      (ChildResult.value 5,
       mkBlockResource 0 false [("volume", CellKind.value 5), ("tuner", CellKind.block 3)]) ∧
    keysNodup [("volume", CellKind.value 5), ("tuner", CellKind.block 3)] ∧
    resolveChild
        (mkBlockResource 0 false [("volume", CellKind.value 5), ("tuner", CellKind.block 3)])
        "tuner" (fun _ => none) (fun _ => 7) =
      (ChildResult.block
        (getBlockChild
          (mkBlockResource 0 false [("volume", CellKind.value 5), ("tuner", CellKind.block 3)])
          "tuner" 7).1,
       (getBlockChild
          (mkBlockResource 0 false [("volume", CellKind.value 5), ("tuner", CellKind.block 3)])
          "tuner" 7).2) ∧
    (mkBlockResource 0 false [("volume", CellKind.value 5), ("tuner", CellKind.block 3)]).cache =
      [] :=
  ⟨by decide,
   (C3_child_resolution_rules 0 [("volume", CellKind.value 5), ("tuner", CellKind.block 3)]
      "volume" (fun _ => none) (fun _ => 7) 5).2.2.2.1 (by decide),
   by decide,
   (C3_child_resolution_rules 0 [("volume", CellKind.value 5), ("tuner", CellKind.block 3)]
      "tuner" (fun _ => none) (fun _ => 7) 3).2.2.2.2.1 (by decide) (by decide),
   (C3_child_resolution_rules 0 [("volume", CellKind.value 5), ("tuner", CellKind.block 3)]
      "volume" (fun _ => none) (fun _ => 7) 5).2.2.2.2.2.2⟩

/-- Claim C4: `render_PUT` on a cell resource stores the parsed value, sets
response code 204, returns an empty body, and fires the shared `note_dirty`
callback exactly once per successful write; the base resource kind's
`grparse` raises `NotImplementedError` for every body. -/
theorem C4_put_semantics (V : Type) (grparse : Bytes → Out CellErr V) (body : Bytes) (v : V)
    (h : grparse body = Out.ok v) :
    render_PUT grparse body = Out.ok ⟨v, 204, emptyBody, 1⟩ ∧
    (∀ b : Bytes, render_PUT (baseGrparse V) b = Out.error CellErr.notImplemented) := by
  constructor
  · simp [render_PUT, h]
  · intro b; rfl

/-- Closed witness for C4 at a concrete parser and body. -/
theorem C4_put_semantics_witness :
    ((fun _ : Bytes => (Out.ok 3 : Out CellErr Nat)) emptyBody = Out.ok 3) ∧
    render_PUT (fun _ : Bytes => (Out.ok 3 : Out CellErr Nat)) emptyBody =
      Out.ok ⟨3, 204, emptyBody, 1⟩ ∧
    (∀ b : Bytes, render_PUT (baseGrparse Nat) b = Out.error CellErr.notImplemented) :=
  ⟨rfl,
   (C4_put_semantics Nat (fun _ => (Out.ok 3 : Out CellErr Nat)) emptyBody 3 rfl).1,
   (C4_put_semantics Nat (fun _ => (Out.ok 3 : Out CellErr Nat)) emptyBody 3 rfl).2⟩

/-- Claim C5: round-trip.  For every JSON-representable value `v`, a `PUT`
of the serialization of `v` on a value-cell path followed by a `GET` of the
same path returns a body whose JSON parse equals `v`, assuming the cell
stores values faithfully (built into the model) and the serializer inverts
JSON parsing (`hinv`). -/
theorem C5_roundtrip (J : Type) (loads : Bytes → Out CellErr J) (ser : J → Bytes)
    (hinv : ∀ x : J, loads (ser x) = Out.ok x) (v : J) :
    ∃ getBody : Bytes, valuePutGet loads ser (ser v) = Out.ok getBody ∧
      loads getBody = Out.ok v := by
  refine ⟨ser v, ?_, hinv v⟩
  simp [valuePutGet, render_PUT, hinv v, cellRender_GET]

/-- Closed witness for C5 with a concrete two-value codec. -/
theorem C5_roundtrip_witness :
    (∀ x : Bool,
      (fun s => if s = trueStr then Out.ok true
        else if s = falseStr then Out.ok false else Out.error CellErr.parseFailed)
        ((fun b : Bool => cond b trueStr falseStr) x) = Out.ok x) ∧
    (∃ getBody : Bytes,
      valuePutGet
        (fun s => if s = trueStr then Out.ok true
          else if s = falseStr then Out.ok false else Out.error CellErr.parseFailed)
        (fun b : Bool => cond b trueStr falseStr)
        ((fun b : Bool => cond b trueStr falseStr) true) = Out.ok getBody ∧
      (fun s => if s = trueStr then Out.ok true
        else if s = falseStr then Out.ok false else Out.error CellErr.parseFailed) getBody =
        Out.ok true) :=
  ⟨by decide,
   C5_roundtrip Bool
     (fun s => if s = trueStr then Out.ok true
       else if s = falseStr then Out.ok false else Out.error CellErr.parseFailed)
     (fun b : Bool => cond b trueStr falseStr) (by decide) true⟩

/-- Claim C6: POST create response.  On a writable-collection block, for a
request carrying exactly the JSON content type whose body parses and whose
child creation succeeds with key `key`, `render_POST` reads the body,
creates the child, fires `note_dirty` after the creation, sets status 201,
sets a `Location` header equal to the request's base URL plus
`/receivers/` plus the URL-escaped key, and returns the serialized URL as
the JSON body. -/
theorem C6_post_created (J : Type) (jsonLoad : Bytes → Out CellErr J)
    (create : J → Out CellErr String) (ser : String → Bytes) (req : Request)
    (j : J) (key : String)
    (hct : req.contentType = some jsonMime)
    (hload : jsonLoad req.content = Out.ok j)
    (hcreate : create j = Out.ok key) :
    render_POST true jsonLoad create ser req =
      ([Ev.readBody, Ev.createdChild key, Ev.notedDirty, Ev.setCode 201,
        Ev.setHeader locField (req.prePathURL ++ receiversSeg ++ urlQuote key)],
       Out.ok (ser (req.prePathURL ++ receiversSeg ++ urlQuote key))) := by
  simp [render_POST, hct, hload, hcreate, postUrl]

/-- Closed witness for C6: the created key contains a space, which is
percent-escaped in the `Location` URL. -/
theorem C6_post_created_witness :
    ((⟨emptyBody, none, some jsonMime, hostUrl, rootPath⟩ : Request).contentType =
      some jsonMime) ∧
    render_POST true (fun _ : Bytes => Out.ok ()) (fun _ : Unit => Out.ok sKey)
        (fun s => s) ⟨emptyBody, none, some jsonMime, hostUrl, rootPath⟩ =
      ([Ev.readBody, Ev.createdChild sKey, Ev.notedDirty, Ev.setCode 201,
        Ev.setHeader locField (hostUrl ++ receiversSeg ++ urlQuote sKey)],
       Out.ok (hostUrl ++ receiversSeg ++ urlQuote sKey)) ∧
    urlQuote sKey = "a%20b" :=
  ⟨rfl,
   C6_post_created Unit (fun _ => Out.ok ()) (fun _ => Out.ok sKey) (fun s => s)
     ⟨emptyBody, none, some jsonMime, hostUrl, rootPath⟩ () sKey rfl rfl rfl,
   by decide⟩

/-- Claim C7: capability-error atomicity.  A POST on a block without the
writable-collection capability, and a DELETE whose parent block lacks it,
each fail with the generic capability exception with an empty side-effect
trace: the body is not read, no child is created or deleted, `note_dirty`
is not fired, and the model state and cache are untouched. -/
theorem C7_capability_error_atomicity (J : Type) (jsonLoad : Bytes → Out CellErr J)
    (create : J → Out CellErr String) (ser : String → Bytes) (req : Request) (name : String) :
    render_POST false jsonLoad create ser req =
      ([], Out.error HttpErr.notWritableCollection) ∧
    render_DELETE false name = ([], Out.error HttpErr.notWritableCollection) :=
  ⟨rfl, rfl⟩

/-- Claim C8: content negotiation on block GET.  When the `Accept` header
mentions the JSON media type, the response is the serialized structural
description with the JSON content type; otherwise it is the HTML document
from the external render element, whose title carries the request path. -/
theorem C8_content_negotiation (D : Type) (ser : D → Bytes) (description : D)
    (req : Request) :
    (jsonAccepted req.accept = true →
        blockRender_GET ser description req = GetResponse.json jsonMime (ser description)) ∧
    (jsonAccepted req.accept = false →
        blockRender_GET ser description req = GetResponse.html htmlMime ⟨req.prepath⟩) := by
  constructor
  · intro h; simp [blockRender_GET, h]
  · intro h; simp [blockRender_GET, h, elementTitle]

/-- Closed witness for C8: one request accepting JSON, one without an
`Accept` header. -/
theorem C8_content_negotiation_witness :
    jsonAccepted (some jsonMime) = true ∧
    blockRender_GET (fun _ : Nat => emptyBody) 0
        ⟨emptyBody, some jsonMime, none, hostUrl, rootPath⟩ =
      GetResponse.json jsonMime emptyBody ∧
    jsonAccepted none = false ∧
    blockRender_GET (fun _ : Nat => emptyBody) 0
        ⟨emptyBody, none, none, hostUrl, rootPath⟩ =
      GetResponse.html htmlMime ⟨rootPath⟩ :=
  ⟨by decide,
   (C8_content_negotiation Nat (fun _ => emptyBody) 0
      ⟨emptyBody, some jsonMime, none, hostUrl, rootPath⟩).1 (by decide),
   by decide,
   (C8_content_negotiation Nat (fun _ => emptyBody) 0
      ⟨emptyBody, none, none, hostUrl, rootPath⟩).2 (by decide)⟩

theorem traceOfEvents_chunks (chunks : List Bytes) :
    traceOfEvents (chunks.map ProcEvent.outReceived ++ [ProcEvent.outConnectionLost]) =
      chunks.map VizEv.respWrite ++ [VizEv.respFinish] := by
  induction chunks with
  | nil => rfl
  | cons c rest ih => simp [traceOfEvents, dotProtocolStep, ih]

theorem respFinish_not_mem (events : List ProcEvent)
    (h : ProcEvent.outConnectionLost ∉ events) :
    VizEv.respFinish ∉ traceOfEvents events := by
  induction events with
  | nil => simp [traceOfEvents]
  | cons e rest ih =>
      simp only [List.mem_cons, not_or] at h
      obtain ⟨h1, h2⟩ := h
      cases e with
      | outReceived d =>
          intro hmem
          simp only [traceOfEvents, dotProtocolStep, List.cons_append, List.nil_append,
            List.mem_cons] at hmem
          rcases hmem with hmem | hmem
          · exact VizEv.noConfusion hmem
          · exact ih h2 hmem
      | outConnectionLost => exact absurd rfl h1

/-- Claim C9: streamed image rendering order.  For a run of the
graph-visualization GET whose subprocess delivers `chunks` and then closes
its output, the operation sequence sets the image content type first (before
any response byte), writes the block's graph description to the subprocess's
stdin and closes it, relays every chunk in arrival order, and finishes the
response exactly at the end; and for any event sequence in which the output
stream has not ended, the response is never finished. -/
theorem C9_streaming_order (dotGraph : Bytes) (chunks : List Bytes)
    (events events₂ : List ProcEvent)
    (h : events = chunks.map ProcEvent.outReceived ++ [ProcEvent.outConnectionLost])
    (h₂ : ProcEvent.outConnectionLost ∉ events₂) :
    vizRender_GET dotGraph events =
      VizEv.setHeader ctField pngMime :: VizEv.stdinWrite dotGraph :: VizEv.stdinClose ::
        (chunks.map VizEv.respWrite ++ [VizEv.respFinish]) ∧
    VizEv.respFinish ∉ vizRender_GET dotGraph events₂ := by
  constructor
  · subst h
    simp [vizRender_GET, traceOfEvents_chunks]
  · intro hmem
    simp only [vizRender_GET, List.mem_cons] at hmem
    rcases hmem with h1 | h1 | h1 | h1
    · exact VizEv.noConfusion h1
    · exact VizEv.noConfusion h1
    · exact VizEv.noConfusion h1
    · exact respFinish_not_mem events₂ h₂ h1

/-- Closed witness for C9: one output chunk followed by stream end, and an
unfinished stream with one pending chunk. -/
theorem C9_streaming_order_witness :
    ([ProcEvent.outReceived sKey, ProcEvent.outConnectionLost] =
      [sKey].map ProcEvent.outReceived ++ [ProcEvent.outConnectionLost]) ∧
    (ProcEvent.outConnectionLost ∉ [ProcEvent.outReceived rootPath]) ∧
    (vizRender_GET emptyBody [ProcEvent.outReceived sKey, ProcEvent.outConnectionLost] =
      VizEv.setHeader ctField pngMime :: VizEv.stdinWrite emptyBody :: VizEv.stdinClose ::
        ([sKey].map VizEv.respWrite ++ [VizEv.respFinish]) ∧
     VizEv.respFinish ∉ vizRender_GET emptyBody [ProcEvent.outReceived rootPath]) :=
  ⟨by decide, by decide,
   C9_streaming_order emptyBody [sKey]
     [ProcEvent.outReceived sKey, ProcEvent.outConnectionLost]
     [ProcEvent.outReceived rootPath] (by decide) (by decide)⟩

/-- Claim C10, as stated, is false on the code: on a block without the
writable-collection capability, a POST whose `Content-Type` header is
missing fails with the capability exception raised by the
`IWritableCollection` check, which precedes the content-type assertion, not
with the assertion failure the claim requires for every such request. -/
theorem C10_counterexample :
    (render_POST false (fun _ : Bytes => Out.error CellErr.parseFailed)
        (fun _ : Unit => Out.error CellErr.parseFailed) (fun s => s)
        ⟨emptyBody, none, none, hostUrl, rootPath⟩).2 =
      Out.error HttpErr.notWritableCollection ∧
    Out.error HttpErr.notWritableCollection ≠
      (Out.error HttpErr.assertionFailed : Out HttpErr Bytes) :=
  ⟨rfl, by decide⟩

/-- Claim C10, amended: on a block that does provide the writable-collection
capability, a POST whose `Content-Type` header differs from (or lacks)
exactly `application/json` fails on that assertion with an empty side-effect
trace — before the body is read, before any child is created, and before
`note_dirty` fires; and the assertion never fails for a request carrying
exactly that header. -/
theorem C10_amended_content_type_assert (J : Type) (jsonLoad : Bytes → Out CellErr J)
    (create : J → Out CellErr String) (ser : String → Bytes) (req : Request) :
    (req.contentType ≠ some jsonMime →
        render_POST true jsonLoad create ser req = ([], Out.error HttpErr.assertionFailed)) ∧
    (req.contentType = some jsonMime →
        (render_POST true jsonLoad create ser req).2 ≠ Out.error HttpErr.assertionFailed) := by
  constructor
  · intro h
    simp [render_POST, h]
  · intro h
    cases hjl : jsonLoad req.content with
    | error e => simp [render_POST, h, hjl]
    | ok j =>
        cases hc : create j with
        | error e => simp [render_POST, h, hjl, hc]
        | ok key => simp [render_POST, h, hjl, hc]

/-- Closed witness for the amended C10: a writable block rejects a
`text/plain` request on the assertion with no side effects, and passes the
assertion when the header is exactly the JSON media type. -/
theorem C10_amended_content_type_assert_witness :
    ((⟨emptyBody, none, some textPlain, hostUrl, rootPath⟩ : Request).contentType ≠
      some jsonMime) ∧
    render_POST true (fun _ : Bytes => Out.ok ()) (fun _ : Unit => Out.ok sKey) (fun s => s)
        ⟨emptyBody, none, some textPlain, hostUrl, rootPath⟩ =
      ([], Out.error HttpErr.assertionFailed) ∧
    ((⟨emptyBody, none, some jsonMime, hostUrl, rootPath⟩ : Request).contentType =
      some jsonMime) ∧
    (render_POST true (fun _ : Bytes => Out.ok ()) (fun _ : Unit => Out.ok sKey) (fun s => s)
        ⟨emptyBody, none, some jsonMime, hostUrl, rootPath⟩).2 ≠
      Out.error HttpErr.assertionFailed :=
  ⟨by decide,
   (C10_amended_content_type_assert Unit (fun _ => Out.ok ()) (fun _ => Out.ok sKey)
      (fun s => s) ⟨emptyBody, none, some textPlain, hostUrl, rootPath⟩).1 (by decide),
   rfl,
   (C10_amended_content_type_assert Unit (fun _ => Out.ok ()) (fun _ => Out.ok sKey)
      (fun s => s) ⟨emptyBody, none, some jsonMime, hostUrl, rootPath⟩).2 rfl⟩

end ExportHttp
